/-
Verification of the compound-risk-scoring pipeline.

Shallow embedding of the core pipeline
(compound_processor.py, risk_analyzer.py, score_calculator.py):
Python floats are modelled as exact rationals (ℚ); IEEE NaN, which the
source can produce in a few places (sample standard deviation of a
singleton, min-max normalization with max == min), is modelled with
`Option ℚ` (`none` = NaN) exactly where it can arise; fallible DataFrame
column access is modelled with `Except`.
-/
import Mathlib

/-! ## Generic numeric helpers -/

/-- Model of `np.clip(x, lo, hi)`. -/
def clip (x lo hi : ℚ) : ℚ := max lo (min x hi)

/-- Model of numpy/pandas `round` to 0 decimals (round half to even),
as used by `credit_scores.round(0).astype(int)` in score_calculator.py. -/
def npRound (q : ℚ) : ℤ :=
  let f : ℤ := ⌊q⌋
  let r : ℚ := q - f
  if r < 1/2 then f
  else if 1/2 < r then f + 1
  else if f % 2 = 0 then f else f + 1

/-- Model of float square root, used only through the sample standard
deviation of inter-transaction gaps.  It is exact on rational perfect
squares (a reduced rational is a square iff its numerator and denominator
are); on other inputs this model returns 0.  No theorem in this file
evaluates it outside the exact cases (every concrete wallet below has at
most one inter-transaction gap, where the source itself yields NaN or 0). -/
def sqrtQ (q : ℚ) : ℚ :=
  if q.num < 0 then 0
  else
    let n := q.num.toNat
    let d := q.den
    if Nat.sqrt n * Nat.sqrt n = n ∧ Nat.sqrt d * Nat.sqrt d = d then
      (Nat.sqrt n : ℚ) / (Nat.sqrt d : ℚ)
    else 0

/-- Model of float division where a zero denominator yields NaN
(`none`), as numpy produces for `0/0` and `x/0` in the anomaly
normalization. -/
def safeDivQ (a b : ℚ) : Option ℚ := if b = 0 then none else some (a / b)

/-- Model of `Series.min()` (default `d` is only used on the empty list,
which the source never reaches on the paths modelled here). -/
def listMinD (l : List ℚ) (d : ℚ) : ℚ :=
  match l with
  | [] => d
  | a :: t => t.foldl min a

/-- Model of `Series.max()` (default `d` as in `listMinD`). -/
def listMaxD (l : List ℚ) (d : ℚ) : ℚ :=
  match l with
  | [] => d
  | a :: t => t.foldl max a

/-- Model of `Series.min()` over integer timestamps. -/
def listIntMinD (l : List ℤ) (d : ℤ) : ℤ :=
  match l with
  | [] => d
  | a :: t => t.foldl min a

/-- Model of `Series.max()` over integer timestamps. -/
def listIntMaxD (l : List ℤ) (d : ℤ) : ℤ :=
  match l with
  | [] => d
  | a :: t => t.foldl max a

/-- Arithmetic mean of a list of rationals (`Series.mean()`); 0 on the
empty list (unreachable: every use below is guarded by the source's
non-emptiness checks). -/
def meanQ (l : List ℚ) : ℚ := l.sum / (l.length : ℚ)

/-- Sample variance with `ddof = 1` (the pandas `Series.var()` default);
`none` models the NaN that pandas returns for fewer than two values. -/
def sampleVar (l : List ℚ) : Option ℚ :=
  if l.length ≤ 1 then none
  else
    let μ := meanQ l
    some ((l.map (fun x => (x - μ) ^ 2)).sum / ((l.length : ℚ) - 1))

/-- Sample standard deviation (`Series.std()`, `ddof = 1`); `none`
models NaN for fewer than two values. -/
def sampleStd (l : List ℚ) : Option ℚ := (sampleVar l).map sqrtQ

/-- Consecutive differences of a list (`Series.diff().dropna()`). -/
def consecDiffs : List ℤ → List ℤ
  | a :: b :: t => (b - a) :: consecDiffs (b :: t)
  | _ => []

/-- Collapse adjacent duplicates, keeping the first of each run; on a
sorted list this yields the sorted distinct values, matching the group
keys of a pandas `groupby` over a sorted column. -/
def dedupAdj (l : List ℚ) : List ℚ :=
  l.foldr (fun a acc => if acc.head? = some a then acc else a :: acc) []

/-- Model of `Series.quantile(q)` with the default linear interpolation:
with the values sorted ascending, the quantile sits at position
`q * (n - 1)` and is interpolated between the two neighbouring values. -/
def quantileQ (l : List ℚ) (q : ℚ) : ℚ :=
  let s := l.mergeSort (fun a b => decide (a ≤ b))
  match s.length with
  | 0 => 0
  | n + 1 =>
    let pos : ℚ := q * (n : ℚ)
    let i : ℕ := (⌊pos⌋).toNat
    let frac : ℚ := pos - (i : ℚ)
    if i + 1 ≤ n then s.getD i 0 + frac * (s.getD (i + 1) 0 - s.getD i 0)
    else s.getD n 0

/-- Model of `Series.quantile` over a column that may contain NaN:
pandas drops NaN values before computing the quantile, and returns NaN
when no values remain. -/
def quantileDropNa (col : List (Option ℚ)) (q : ℚ) : Option ℚ :=
  let v := col.filterMap id
  if v.isEmpty then none else some (quantileQ v q)

/-- Comparison `a > b` under NaN semantics: any comparison with NaN is
false. -/
def optGtOpt (a b : Option ℚ) : Bool :=
  match a, b with
  | some x, some y => decide (y < x)
  | _, _ => false

/-- Comparison `a > c` (constant right-hand side) under NaN semantics. -/
def optGtQ (a : Option ℚ) (c : ℚ) : Bool :=
  match a with
  | some x => decide (c < x)
  | none => false

/-- Comparison `a < c` (constant right-hand side) under NaN semantics. -/
def optLtQ (a : Option ℚ) (c : ℚ) : Bool :=
  match a with
  | some x => decide (x < c)
  | none => false

/-! ## Data model: raw and normalized transactions (compound_processor.py) -/

/-- Raw transaction dictionary as consumed by `process_wallet_data`;
every field is optional, mirroring the `tx.get(key, default)` accesses
of the source.  The Python keys `from`/`to` are modelled as
`from_addr`/`to_addr` (`from` is a Lean keyword), and the key `type`
as `type_tag`. -/
structure RawTx where
  tx_hash : Option String := none
  blockNumber : Option ℤ := none
  timeStamp : Option ℤ := none
  from_addr : Option String := none
  to_addr : Option String := none
  value : Option ℚ := none
  gasUsed : Option ℤ := none
  gasPrice : Option ℤ := none
  compound_action : Option String := none
  isError : Option ℤ := none
  type_tag : Option String := none
  tokenDecimal : Option ℤ := none
  tokenSymbol : Option String := none
  contractAddress : Option String := none
deriving DecidableEq, Inhabited

/-- One element of the `wallet_data` list: an address plus its raw
transaction list. -/
structure WalletInput where
  address : String
  transactions : List RawTx := []
deriving DecidableEq, Inhabited

/-- Normalized transaction row produced by `process_wallet_data`,
including the derived datetime fields added when the frame is
non-empty. -/
structure NormTx where
  wallet_address : String := ""
  tx_hash : String := ""
  block_number : ℤ := 0
  timestamp : ℤ := 0
  from_address : String := ""
  to_address : String := ""
  value : ℚ := 0
  gas_used : ℤ := 0
  gas_price : ℤ := 0
  tx_fee : ℚ := 0
  compound_action : String := "unknown"
  is_error : ℤ := 0
  tx_type : String := "regular"
  token_value : Option ℚ := none
  token_symbol : Option String := none
  token_address : Option String := none
  date : ℤ := 0
  hour : ℤ := 0
  day_of_week : ℤ := 0
deriving DecidableEq, Inhabited

/-- Normalization of one raw transaction for a given wallet address
(the loop body of `process_wallet_data`, lines 35-59, together with the
vectorized datetime-field derivation of lines 64-68: `date` is the unix
day, `hour` the hour of day, `day_of_week` the pandas convention with
Monday = 0, so the unix epoch day is 3 = Thursday). -/
def normalizeTx (address : String) (tx : RawTx) : NormTx :=
  let ts := tx.timeStamp.getD 0
  { wallet_address := address
    tx_hash := tx.tx_hash.getD ""
    block_number := tx.blockNumber.getD 0
    timestamp := ts
    from_address := (tx.from_addr.getD "").toLower
    to_address := (tx.to_addr.getD "").toLower
    value := (tx.value.getD 0) / 10 ^ 18
    gas_used := tx.gasUsed.getD 0
    gas_price := tx.gasPrice.getD 0
    tx_fee := ((tx.gasUsed.getD 0 * tx.gasPrice.getD 0 : ℤ) : ℚ) / 10 ^ 18
    compound_action := tx.compound_action.getD "unknown"
    is_error := tx.isError.getD 0
    tx_type := tx.type_tag.getD "regular"
    token_value :=
      if tx.type_tag = some "token" then
        some ((tx.value.getD 0) / 10 ^ (tx.tokenDecimal.getD 18))
      else none
    token_symbol :=
      if tx.type_tag = some "token" then some (tx.tokenSymbol.getD "") else none
    token_address :=
      if tx.type_tag = some "token" then
        some ((tx.contractAddress.getD "").toLower)
      else none
    date := ts.ediv 86400
    hour := (ts.emod 86400).ediv 3600
    day_of_week := (ts.ediv 86400 + 3).emod 7 }

/-- Flattened transaction table in original input order (the
`all_transactions` list of `process_wallet_data` before sorting). -/
def flattenedTxs (wallet_data : List WalletInput) : List NormTx :=
  wallet_data.flatMap fun w => w.transactions.map (normalizeTx w.address)

/-- Sort key comparison of `df.sort_values(['wallet_address',
'timestamp'])`: lexicographic on (wallet address, timestamp). -/
def txKeyLE (a b : NormTx) : Bool :=
  decide (a.wallet_address < b.wallet_address ∨
    (a.wallet_address = b.wallet_address ∧ a.timestamp ≤ b.timestamp))

/-- Model of `process_wallet_data` (compound_processor.py lines 17-76):
flatten every wallet's raw transactions into normalized rows, then — for
a non-empty frame — derive the datetime fields (done inside
`normalizeTx`) and sort by (wallet_address, timestamp).  The pandas
multi-column `sort_values` is an `np.lexsort`, a stable sort, so it is
modelled with the stable `List.mergeSort`. -/
def process_wallet_data (wallet_data : List WalletInput) : List NormTx :=
  if (flattenedTxs wallet_data).isEmpty then flattenedTxs wallet_data
  else (flattenedTxs wallet_data).mergeSort txKeyLE

/-! ## Wallet metrics aggregator (compound_processor.py lines 78-221)

Python field names ending in `ratio` are rendered with the suffix `rat`
(e.g. `repay_to_borrow_rat` for the source's repay-to-borrow quotient);
everything else keeps the source name. -/

/-- One WalletMetrics row.  `std_time_between_txs` and
`activity_regularity` are `Option ℚ` because `Series.std()` (ddof = 1)
of a single inter-transaction gap is NaN in the source and that NaN
propagates into the coefficient of variation. -/
structure WalletMetrics where
  wallet_address : String := ""
  total_transactions : ℕ := 0
  successful_transactions : ℕ := 0
  failed_transactions : ℕ := 0
  success_rate : ℚ := 0
  first_tx_date : ℤ := 0
  last_tx_date : ℤ := 0
  account_age_days : ℚ := 0
  avg_tx_interval_days : ℚ := 0
  mint_count : ℕ := 0
  redeem_count : ℕ := 0
  redeemUnderlying_count : ℕ := 0
  borrow_count : ℕ := 0
  repayBorrow_count : ℕ := 0
  liquidateBorrow_count : ℕ := 0
  supply_rat : ℚ := 0
  withdraw_rat : ℚ := 0
  borrow_rat : ℚ := 0
  repay_rat : ℚ := 0
  liquidation_count : ℕ := 0
  has_liquidations : ℕ := 0
  liquidation_rate : ℚ := 0
  total_gas_spent : ℚ := 0
  avg_gas_per_tx : ℚ := 0
  total_eth_value : ℚ := 0
  avg_eth_per_tx : ℚ := 0
  avg_time_between_txs : ℚ := 0
  std_time_between_txs : Option ℚ := some 0
  activity_regularity : Option ℚ := some 0
  action_diversity : ℕ := 0
  weekend_activity_rat : ℚ := 0
  night_activity_rat : ℚ := 0
  repay_to_borrow_rat : ℚ := 0
  max_daily_transactions : ℚ := 0
  avg_daily_transactions : ℚ := 0
  daily_activity_variance : ℚ := 0
deriving DecidableEq, Inhabited

/-- Count of transactions with the given `compound_action` label
(`txs['compound_action'].value_counts()` lookup). -/
def countAction (txs : List NormTx) (a : String) : ℕ :=
  (txs.filter fun t => decide (t.compound_action = a)).length

/-- Per-day transaction counts (`txs.groupby('date').size()`): one count
per distinct date value. -/
def dailyTxCounts (txs : List NormTx) : List ℕ :=
  ((txs.map fun t => ((t.date : ℚ))).dedup).map fun d =>
    (txs.filter fun t => decide ((t.date : ℚ) = d)).length

/-- Model of `_calculate_single_wallet_metrics` (lines 101-221). -/
def calc_single_wallet_metrics (address : String) (txs : List NormTx) :
    WalletMetrics :=
  let total := txs.length
  let successful := (txs.filter fun t => decide (t.is_error = 0)).length
  let failed := (txs.filter fun t => decide (t.is_error = 1)).length
  let tss := txs.map (·.timestamp)
  let first := listIntMinD tss 0
  let last := listIntMaxD tss 0
  let age : ℚ := ((last - first : ℤ) : ℚ) / 86400
  let mint := countAction txs "mint"
  let redeem := countAction txs "redeem"
  let redeemU := countAction txs "redeemUnderlying"
  let borrow := countAction txs "borrow"
  let repay := countAction txs "repayBorrow"
  let liqB := countAction txs "liquidateBorrow"
  let total_actions := mint + redeem + redeemU + borrow + repay
  let successful_txs := txs.filter fun t => decide (t.is_error = 0)
  let time_diffs : List ℚ := (consecDiffs tss).map fun d => (d : ℚ) / 3600
  let diff_mean := meanQ time_diffs
  let daily := dailyTxCounts txs
  { wallet_address := address
    total_transactions := total
    successful_transactions := successful
    failed_transactions := failed
    success_rate := (successful : ℚ) / (max total 1 : ℕ)
    first_tx_date := if 0 < total then first else 0
    last_tx_date := if 0 < total then last else 0
    account_age_days := if 0 < total then age else 0
    avg_tx_interval_days :=
      if 0 < total then age / ((max (total - 1) 1 : ℕ) : ℚ) else 0
    mint_count := mint
    redeem_count := redeem
    redeemUnderlying_count := redeemU
    borrow_count := borrow
    repayBorrow_count := repay
    liquidateBorrow_count := liqB
    supply_rat := if 0 < total_actions then (mint : ℚ) / total_actions else 0
    withdraw_rat :=
      if 0 < total_actions then ((redeem + redeemU : ℕ) : ℚ) / total_actions
      else 0
    borrow_rat := if 0 < total_actions then (borrow : ℚ) / total_actions else 0
    repay_rat := if 0 < total_actions then (repay : ℚ) / total_actions else 0
    liquidation_count := liqB
    has_liquidations := if 0 < liqB then 1 else 0
    liquidation_rate := (liqB : ℚ) / (max total 1 : ℕ)
    total_gas_spent :=
      if 0 < successful_txs.length then (successful_txs.map (·.tx_fee)).sum
      else 0
    avg_gas_per_tx :=
      if 0 < successful_txs.length then meanQ (successful_txs.map (·.tx_fee))
      else 0
    total_eth_value :=
      if 0 < successful_txs.length then (successful_txs.map (·.value)).sum
      else 0
    avg_eth_per_tx :=
      if 0 < successful_txs.length then meanQ (successful_txs.map (·.value))
      else 0
    avg_time_between_txs := if 1 < total then diff_mean else 0
    std_time_between_txs := if 1 < total then sampleStd time_diffs else some 0
    activity_regularity :=
      if 1 < total then
        if 0 < diff_mean then (sampleStd time_diffs).map (· / diff_mean)
        else some 0
      else some 0
    action_diversity := (txs.map (·.compound_action)).dedup.length
    weekend_activity_rat :=
      ((txs.filter fun t =>
        decide (t.day_of_week = 5 ∨ t.day_of_week = 6)).length : ℚ) /
        ((max txs.length 1 : ℕ) : ℚ)
    night_activity_rat :=
      ((txs.filter fun t =>
        decide (0 ≤ t.hour ∧ t.hour ≤ 6)).length : ℚ) /
        ((max txs.length 1 : ℕ) : ℚ)
    repay_to_borrow_rat := (repay : ℚ) / ((max borrow 1 : ℕ) : ℚ)
    max_daily_transactions :=
      if 0 < total then listMaxD (daily.map fun n => (n : ℚ)) 0 else 0
    avg_daily_transactions :=
      if 0 < total then meanQ (daily.map fun n => (n : ℚ)) else 0
    daily_activity_variance :=
      if 0 < total then
        if 1 < daily.length then (sampleVar (daily.map fun n => (n : ℚ))).getD 0
        else 0
      else 0 }

/-- Model of a pandas DataFrame of WalletMetrics rows.  `hasCols`
records whether the frame has its columns: `pd.DataFrame()` built from
an empty list of row dicts has none, so any column access on it raises
`KeyError`; a frame built from a non-empty list has all of them. -/
structure MetricsFrame where
  rows : List WalletMetrics
  hasCols : Bool
deriving DecidableEq, Inhabited

/-- Model of `calculate_wallet_metrics` (lines 78-99): on an empty
transaction frame return the empty column-less `pd.DataFrame()`;
otherwise one metrics row per distinct wallet address, in sorted
address order (pandas `groupby` sorts its keys; the frame arrives
already sorted by address, so adjacent deduplication of the address
column yields exactly the sorted distinct addresses). -/
def calculate_wallet_metrics (df : List NormTx) : MetricsFrame :=
  if df.isEmpty then ⟨[], false⟩
  else
    let keys := (df.map (·.wallet_address)).dedup
    ⟨(keys.mergeSort (fun a b => decide (a ≤ b))).map fun k =>
        calc_single_wallet_metrics k
          (df.filter fun t => decide (t.wallet_address = k)), true⟩

/-! ## Risk feature engine (risk_analyzer.py lines 21-215) -/

/-- Column access `df[name]` on a metrics frame, mapped through the
per-row projection `f`.  On the column-less empty `pd.DataFrame()` any
column access raises `KeyError`, modelled as `Except.error` carrying the
column name. -/
def getColQ (m : MetricsFrame) (name : String) (f : WalletMetrics → ℚ) :
    Except String (List ℚ) :=
  if m.hasCols then .ok (m.rows.map f) else .error name

/-- Column access for the NaN-capable columns (`Option ℚ` valued). -/
def getColOpt (m : MetricsFrame) (name : String)
    (f : WalletMetrics → Option ℚ) : Except String (List (Option ℚ)) :=
  if m.hasCols then .ok (m.rows.map f) else .error name

/-- Per-row body of `_calculate_liquidation_risk` (lines 62-76). -/
def liquidation_risk_row (liq_count liq_rate has_liq : ℚ) : ℚ :=
  clip (liq_count * 0.5 + liq_rate * 0.3 + has_liq * 0.2) 0 1

/-- Model of `_calculate_liquidation_risk` (lines 62-76). -/
def calculate_liquidation_risk (m : MetricsFrame) : Except String (List ℚ) := do
  let liq ← getColQ m "liquidation_count" fun r => (r.liquidation_count : ℚ)
  let rate ← getColQ m "liquidation_rate" (·.liquidation_rate)
  let has ← getColQ m "has_liquidations" fun r => (r.has_liquidations : ℚ)
  .ok (List.zipWith (fun c rh => liquidation_risk_row c rh.1 rh.2)
        liq (rate.zip has))

/-- Model of `_calculate_behavioral_risk` (lines 78-93); the
`activity_regularity` column can contain NaN, and both the 80th
percentile (pandas drops NaN) and the `>` comparison (false on NaN)
follow pandas semantics. -/
def calculate_behavioral_risk (m : MetricsFrame) : Except String (List ℚ) := do
  let sr ← getColQ m "success_rate" (·.success_rate)
  let reg ← getColOpt m "activity_regularity" (·.activity_regularity)
  let wk ← getColQ m "weekend_activity_ratio" (·.weekend_activity_rat)
  let ni ← getColQ m "night_activity_ratio" (·.night_activity_rat)
  let p80 := quantileDropNa reg 0.8
  .ok (List.zipWith
        (fun s rwn =>
          clip ((1 - s) * 0.3 +
            (if optGtOpt rwn.1 p80 then 0.2 else 0) +
            clip (rwn.2.1 - 0.3) 0 1 * 0.2 +
            clip (rwn.2.2 - 0.2) 0 1 * 0.3) 0 1)
        sr (reg.zip (wk.zip ni)))

/-- Model of `_calculate_financial_health` (lines 95-116). -/
def calculate_financial_health (m : MetricsFrame) : Except String (List ℚ) := do
  let ratio ← getColQ m "repay_to_borrow_ratio" (·.repay_to_borrow_rat)
  let div ← getColQ m "action_diversity" fun r => (r.action_diversity : ℚ)
  let age ← getColQ m "account_age_days" (·.account_age_days)
  let gas ← getColQ m "avg_gas_per_tx" (·.avg_gas_per_tx)
  let gasMax := listMaxD gas 0
  let p90 := quantileQ gas 0.9
  .ok (List.zipWith
        (fun r dag =>
          clip (1 - (if r < 0.8 then 0.4 else 0)
            - (if dag.1 ≤ 2 then 0.2 else 0)
            - (if dag.2.1 < 30 then 0.2 else 0)
            - (if 0 < gasMax ∧ p90 < dag.2.2 then 0.2 else 0)) 0 1)
        ratio (div.zip (age.zip gas)))

/-- Model of `_calculate_activity_pattern_risk` (lines 118-136). -/
def calculate_activity_pattern_risk (m : MetricsFrame) :
    Except String (List ℚ) := do
  let dvar ← getColQ m "daily_activity_variance" (·.daily_activity_variance)
  let maxd ← getColQ m "max_daily_transactions" (·.max_daily_transactions)
  let reg ← getColOpt m "activity_regularity" (·.activity_regularity)
  let tot ← getColQ m "total_transactions" fun r => (r.total_transactions : ℚ)
  let varMax := listMaxD dvar 0
  let p80 := quantileQ dvar 0.8
  let maxdMax := listMaxD maxd 0
  let p90 := quantileQ maxd 0.9
  .ok (List.zipWith
        (fun v mrt =>
          clip ((if 0 < varMax ∧ p80 < v then 0.3 else 0) +
            (if 0 < maxdMax ∧ p90 < mrt.1 then 0.4 else 0) +
            (if optLtQ mrt.2.1 0.1 ∧ 5 < mrt.2.2 then 0.3 else 0)) 0 1)
        dvar (maxd.zip (reg.zip tot)))

/-- Per-row body of `_calculate_repayment_behavior` (lines 138-158): the
four bucket masks are additive, exactly as in the source (a wallet can
receive several buckets at once). -/
def repayment_behavior_row (ratio borrow_count liq_count : ℚ) : ℚ :=
  clip ((if 1 ≤ ratio then 0.5 else 0) +
    (if 0.8 ≤ ratio ∧ ratio < 1 then 0.3 else 0) +
    (if ¬0 < borrow_count then 0.2 else 0) +
    (if liq_count = 0 then 0.3 else 0)) 0 1

/-- Model of `_calculate_repayment_behavior` (lines 138-158). -/
def calculate_repayment_behavior (m : MetricsFrame) :
    Except String (List ℚ) := do
  let ratio ← getColQ m "repay_to_borrow_ratio" (·.repay_to_borrow_rat)
  let borrow ← getColQ m "borrow_count" fun r => (r.borrow_count : ℚ)
  let liq ← getColQ m "liquidation_count" fun r => (r.liquidation_count : ℚ)
  .ok (List.zipWith (fun r bl => repayment_behavior_row r bl.1 bl.2)
        ratio (borrow.zip liq))

/-- The `(age_bins, age_scores)` table of `_calculate_experience_score`
(lines 165-166): half-open bins `(lo, hi]`, the last one unbounded
(`float('inf')`). -/
def experience_age_bins : List ((ℚ × Option ℚ) × ℚ) :=
  [((0, some 30), 0.1), ((30, some 90), 0.3), ((90, some 180), 0.5),
   ((180, some 365), 0.7), ((365, none), 1.0)]

/-- Base experience score before the two bonuses: the masked-assignment
loop of lines 168-170 over `experience_age_bins`, starting from the
`np.zeros` initial value.  An age matching no bin keeps the initial 0. -/
def experience_base (age : ℚ) : ℚ :=
  experience_age_bins.foldl
    (fun acc b =>
      if decide (b.1.1 < age) && b.1.2.all (fun h => decide (age ≤ h))
      then b.2 else acc) 0

/-- Model of `_calculate_experience_score` (lines 160-180). -/
def calculate_experience_score (m : MetricsFrame) :
    Except String (List ℚ) := do
  let age ← getColQ m "account_age_days" (·.account_age_days)
  let tot ← getColQ m "total_transactions" fun r => (r.total_transactions : ℚ)
  let reg ← getColOpt m "activity_regularity" (·.activity_regularity)
  let p70 := quantileQ tot 0.7
  .ok (List.zipWith
        (fun a tr =>
          clip (experience_base a +
            (if p70 < tr.1 then 0.2 else 0) +
            (if optGtQ tr.2 0.1 ∧ optLtQ tr.2 1 then 0.1 else 0)) 0 1)
        age (tot.zip reg))

/-- Model of `_calculate_diversification_score` (lines 182-196). -/
def calculate_diversification_score (m : MetricsFrame) :
    Except String (List ℚ) := do
  let div ← getColQ m "action_diversity" fun r => (r.action_diversity : ℚ)
  let s ← getColQ m "supply_ratio" (·.supply_rat)
  let w ← getColQ m "withdraw_ratio" (·.withdraw_rat)
  let b ← getColQ m "borrow_ratio" (·.borrow_rat)
  let r ← getColQ m "repay_ratio" (·.repay_rat)
  .ok (List.zipWith
        (fun d swbr =>
          clip (clip (d / 5) 0 0.6 +
            (1 - max (max (max swbr.1 swbr.2.1) swbr.2.2.1) swbr.2.2.2) * 0.4)
            0 1)
        div (s.zip (w.zip (b.zip r))))

/-- Model of `_calculate_bot_behavior_score` (lines 198-215). -/
def calculate_bot_behavior_score (m : MetricsFrame) :
    Except String (List ℚ) := do
  let reg ← getColOpt m "activity_regularity" (·.activity_regularity)
  let tot ← getColQ m "total_transactions" fun r => (r.total_transactions : ℚ)
  let ni ← getColQ m "night_activity_ratio" (·.night_activity_rat)
  let maxd ← getColQ m "max_daily_transactions" (·.max_daily_transactions)
  let maxdMax := listMaxD maxd 0
  .ok (List.zipWith
        (fun r tnm =>
          clip ((if optLtQ r 0.05 ∧ 10 < tnm.1 then 0.4 else 0) +
            (if 0.5 < tnm.2.1 then 0.3 else 0) +
            (if 0 < maxdMax ∧ 50 < tnm.2.2 then 0.3 else 0)) 0 1)
        reg (tot.zip (ni.zip maxd)))

/-- RiskFeatures row: the WalletMetrics row plus the 8 added
sub-scores. -/
structure RiskRow where
  metrics : WalletMetrics := default
  liquidation_risk_score : ℚ := 0
  behavioral_risk_score : ℚ := 0
  financial_health_score : ℚ := 0
  activity_pattern_risk : ℚ := 0
  repayment_behavior_score : ℚ := 0
  experience_score : ℚ := 0
  diversification_score : ℚ := 0
  bot_behavior_score : ℚ := 0
deriving DecidableEq, Inhabited

/-- Model of `calculate_risk_features` (lines 21-60): copy the metrics
frame and add the 8 sub-score columns.  Any of the column accesses
inside the sub-score computations propagates its `KeyError`. -/
def calculate_risk_features (m : MetricsFrame) : Except String (List RiskRow) := do
  let liq ← calculate_liquidation_risk m
  let beh ← calculate_behavioral_risk m
  let fin ← calculate_financial_health m
  let act ← calculate_activity_pattern_risk m
  let rep ← calculate_repayment_behavior m
  let exp ← calculate_experience_score m
  let div ← calculate_diversification_score m
  let bot ← calculate_bot_behavior_score m
  .ok ((List.range m.rows.length).map fun i =>
    { metrics := m.rows.getD i default
      liquidation_risk_score := liq.getD i 0
      behavioral_risk_score := beh.getD i 0
      financial_health_score := fin.getD i 0
      activity_pattern_risk := act.getD i 0
      repayment_behavior_score := rep.getD i 0
      experience_score := exp.getD i 0
      diversification_score := div.getD i 0
      bot_behavior_score := bot.getD i 0 })

/-! ## Anomaly detector normalization (risk_analyzer.py lines 217-260)

The isolation forest itself is an external fitted model; its per-wallet
decision scores are the input here.  Lines 253-256 min-max normalize
them with no guard against `max == min`; float division by a zero range
yields NaN, modelled as `none`. -/

/-- Min-max normalization of the isolation-forest decision scores
(lines 253-256): `(d - d.min()) / (d.max() - d.min())`. -/
def normalize_decision_scores (d : List ℚ) : List (Option ℚ) :=
  let mn := listMinD d 0
  let mx := listMaxD d 0
  d.map fun x => safeDivQ (x - mn) (mx - mn)

/-! ## Score calculator (score_calculator.py) -/

/-- The seven component weights of `RiskScoreCalculator.__init__`
(lines 13-23). -/
def weight_liquidation_risk : ℚ := 0.25

/-- Weight of the behavioral risk component. -/
def weight_behavioral_risk : ℚ := 0.15

/-- Weight of the financial health component. -/
def weight_financial_health : ℚ := 0.20

/-- Weight of the activity pattern risk component. -/
def weight_activity_pattern_risk : ℚ := 0.10

/-- Weight of the repayment behavior component. -/
def weight_repayment_behavior : ℚ := 0.15

/-- Weight of the experience component. -/
def weight_experience : ℚ := 0.10

/-- Weight of the diversification component. -/
def weight_diversification : ℚ := 0.05

/-- Per-row body of `_calculate_composite_score` (lines 79-115): the
three risk components weighted directly, the four positive components
inverted (`1 - score`) and weighted, then clipped to [0,1].  All eight
columns are present on every frame produced by
`calculate_risk_features`, so the source's `if component in
risk_features.columns` guards are always taken. -/
def composite_score_row (r : RiskRow) : ℚ :=
  clip (r.liquidation_risk_score * weight_liquidation_risk +
    r.behavioral_risk_score * weight_behavioral_risk +
    r.activity_pattern_risk * weight_activity_pattern_risk +
    (1 - r.financial_health_score) * weight_financial_health +
    (1 - r.repayment_behavior_score) * weight_repayment_behavior +
    (1 - r.experience_score) * weight_experience +
    (1 - r.diversification_score) * weight_diversification) 0 1

/-- The final risk value of `calculate_scores` lines 44-50: the anomaly
adjustment `(1 - anomaly_score) * 0.1` is subtracted from the composite
score and the result clipped to [0,1]. -/
def final_risk_score (composite anomaly : ℚ) : ℚ :=
  clip (composite - (1 - anomaly) * 0.1) 0 1

/-- The unrounded credit score of line 55: `(1 - final_risk) * 1000`. -/
def credit_score_of (r : RiskRow) (anomaly : ℚ) : ℚ :=
  (1 - final_risk_score (composite_score_row r) anomaly) * 1000

/-- Per-value body of `_categorize_risk` (lines 117-140).  Note that the
source applies this to the unrounded float credit scores (line 58 passes
`credit_scores`, not the rounded `score` column). -/
def categorize_risk (score : ℚ) : String :=
  if 800 ≤ score then "Low Risk"
  else if 600 ≤ score then "Medium-Low Risk"
  else if 400 ≤ score then "Medium Risk"
  else if 200 ≤ score then "High Risk"
  else "Very High Risk"

/-- One FinalScore row of the `calculate_scores` output (the columns of
lines 39-72 that carry scoring information; the pass-through metric
columns are reachable through `risk_row.metrics`). -/
structure ScoreRow where
  wallet_id : String := ""
  score : ℤ := 0
  risk_category : String := ""
  liquidation_risk_component : ℚ := 0
  behavioral_risk_component : ℚ := 0
  financial_health_component : ℚ := 0
  repayment_behavior_component : ℚ := 0
  experience_component : ℚ := 0
  anomaly_score : ℚ := 0
deriving DecidableEq, Inhabited

/-- One output row of `calculate_scores` for a given risk row and
anomaly score.  The reported `score` column is the credit score rounded
half-to-even and cast to int (line 57); the `risk_category` column is
computed from the unrounded credit score (line 58 passes
`credit_scores`). -/
def score_row (r : RiskRow) (a : ℚ) : ScoreRow :=
  let credit := credit_score_of r a
  { wallet_id := r.metrics.wallet_address
    score := npRound credit
    risk_category := categorize_risk credit
    liquidation_risk_component := r.liquidation_risk_score
    behavioral_risk_component := r.behavioral_risk_score
    financial_health_component := r.financial_health_score
    repayment_behavior_component := r.repayment_behavior_score
    experience_component := r.experience_score
    anomaly_score := a }

/-- Model of `calculate_scores` (lines 25-77), one output row per risk
row, aligned index-wise with the anomaly score series. -/
def calculate_scores (risk_features : List RiskRow) (anomaly_scores : List ℚ) :
    List ScoreRow :=
  (List.range risk_features.length).map fun i =>
    score_row (risk_features.getD i default) (anomaly_scores.getD i 0)

/-! ## Theorems -/

/-- C9: the seven component weights of the score calculator sum to
exactly 1, and in particular to 1 within 1e-9. -/
theorem C9_weights_sum_to_one :
    weight_liquidation_risk + weight_behavioral_risk +
      weight_financial_health + weight_activity_pattern_risk +
      weight_repayment_behavior + weight_experience +
      weight_diversification = 1 ∧
    |weight_liquidation_risk + weight_behavioral_risk +
      weight_financial_health + weight_activity_pattern_risk +
      weight_repayment_behavior + weight_experience +
      weight_diversification - 1| ≤ 1 / 10 ^ 9 := by
  norm_num [weight_liquidation_risk, weight_behavioral_risk,
    weight_financial_health, weight_activity_pattern_risk,
    weight_repayment_behavior, weight_experience, weight_diversification]

/-- C1 counterexample: with the composite risk fixed at 1/2, the wallet
with the LOWER anomaly score 0 (less normal) gets a strictly LOWER
final risk than the wallet with anomaly score 1, contradicting the
claim that its final risk is at least as high (the claimed
monotonically non-increasing behavior fails). -/
theorem C1_counterexample :
    ¬ final_risk_score (1/2) 1 ≤ final_risk_score (1/2) 0 := by
  norm_num [final_risk_score, clip]

/-- C1 amended: `final_risk = clip(composite - (1 - anomaly_score) *
0.1, 0, 1)` is monotonically non-DEcreasing in the anomaly score, so a
less-normal wallet (lower anomaly score) gets a final risk at most as
high — and hence an unrounded credit score `(1 - final_risk) * 1000` at
least as high — as a more-normal wallet with the same composite. -/
theorem C1_amended (c a₁ a₂ : ℚ) (h : a₁ ≤ a₂) :
    final_risk_score c a₁ ≤ final_risk_score c a₂ ∧
    (1 - final_risk_score c a₂) * 1000 ≤ (1 - final_risk_score c a₁) * 1000 := by
  have h1 : c - (1 - a₁) * 0.1 ≤ c - (1 - a₂) * 0.1 := by nlinarith
  have h2 : final_risk_score c a₁ ≤ final_risk_score c a₂ := by
    unfold final_risk_score clip
    exact max_le_max le_rfl (min_le_min h1 le_rfl)
  exact ⟨h2, by nlinarith⟩

/-- C1 witness: the amended monotonicity at concrete inputs. -/
theorem C1_witness :
    (1/4 : ℚ) ≤ 3/4 ∧
    (final_risk_score (1/2) (1/4) ≤ final_risk_score (1/2) (3/4) ∧
     (1 - final_risk_score (1/2) (3/4)) * 1000 ≤
       (1 - final_risk_score (1/2) (1/4)) * 1000) :=
  ⟨by norm_num, C1_amended (1/2) (1/4) (3/4) (by norm_num)⟩

/-- Risk row whose unrounded credit score is 799.6: composite is
0.25 * 1 + 0.15 * 0.336 = 0.3004, and with anomaly score 0 the final
risk is 0.2004, so the credit score is 799.6 — reported as the rounded
integer 800 but categorized from the unrounded 799.6. -/
def c2_row : RiskRow :=
  { liquidation_risk_score := 1
    behavioral_risk_score := 42/125
    financial_health_score := 1
    repayment_behavior_score := 1
    experience_score := 1
    diversification_score := 1 }

/-- C2 counterexample: a wallet whose reported integer score is exactly
800 but whose risk category is "Medium-Low Risk", because
`calculate_scores` categorizes the unrounded credit score 799.6, not
the reported rounded integer. -/
theorem C2_counterexample :
    ((calculate_scores [c2_row] [0]).getD 0 default).score = 800 ∧
    ((calculate_scores [c2_row] [0]).getD 0 default).risk_category =
      "Medium-Low Risk" := by
  have h1 : (calculate_scores [c2_row] [0]).getD 0 default =
      score_row c2_row 0 := rfl
  have hcredit : credit_score_of c2_row 0 = 3998/5 := by
    simp only [credit_score_of, final_risk_score, composite_score_row, c2_row,
      clip, weight_liquidation_risk, weight_behavioral_risk,
      weight_financial_health, weight_activity_pattern_risk,
      weight_repayment_behavior, weight_experience, weight_diversification]
    norm_num [max_def, min_def]
  have hfloor : ⌊(3998 : ℚ)/5⌋ = 799 := by
    rw [Int.floor_eq_iff]
    norm_num
  constructor
  · show npRound (credit_score_of c2_row 0) = 800
    rw [hcredit]
    simp only [npRound, hfloor]
    norm_num
  · show categorize_risk (credit_score_of c2_row 0) = "Medium-Low Risk"
    rw [hcredit]
    simp only [categorize_risk]
    norm_num

/-- C2 amended: for every wallet, the risk category is determined by
the lower-bound-inclusive thresholds (≥800 Low, ≥600 Medium-Low, ≥400
Medium, ≥200 High, else Very High) applied to the UNROUNDED credit
score `(1 - final_risk) * 1000`, not to the reported rounded integer
score, and every wallet receives exactly one of the 5 categories. -/
theorem C2_amended (rs : List RiskRow) (as : List ℚ) (i : ℕ)
    (h : i < rs.length) :
    ((calculate_scores rs as).getD i default).risk_category =
      categorize_risk (credit_score_of (rs.getD i default) (as.getD i 0)) ∧
    ((calculate_scores rs as).getD i default).risk_category ∈
      ["Low Risk", "Medium-Low Risk", "Medium Risk", "High Risk",
       "Very High Risk"] := by
  have hrow : (calculate_scores rs as).getD i default =
      score_row (rs.getD i default) (as.getD i 0) := by
    unfold calculate_scores
    rw [List.getD_eq_getElem?_getD, List.getElem?_map, List.getElem?_range h]
    rfl
  rw [hrow]
  refine ⟨rfl, ?_⟩
  show categorize_risk _ ∈ _
  unfold categorize_risk
  split_ifs <;> simp

/-- C2 witness: the amended statement at a concrete input. -/
theorem C2_witness :
    0 < [c2_row].length ∧
    (((calculate_scores [c2_row] [1/2]).getD 0 default).risk_category =
      categorize_risk (credit_score_of ([c2_row].getD 0 default)
        ([(1:ℚ)/2].getD 0 0)) ∧
    ((calculate_scores [c2_row] [1/2]).getD 0 default).risk_category ∈
      ["Low Risk", "Medium-Low Risk", "Medium Risk", "High Risk",
       "Very High Risk"]) :=
  ⟨by decide, C2_amended [c2_row] [1/2] 0 (by decide)⟩

/-- C7 counterexample: the base experience score of a wallet with
`account_age_days = 0` (every single-transaction wallet) is 0, not the
0.1 the claim assigns to all ages ≤ 30: age 0 satisfies no bin of the
source's `(lo, hi]` mask loop, whose first bin needs `0 < age`. -/
theorem C7_counterexample :
    experience_base 0 = 0 ∧ experience_base 0 ≠ 0.1 := by
  constructor <;> norm_num [experience_base, experience_age_bins]

/-- C7 amended: the base experience score (before the two bonuses) is
0.1 for `0 < age ≤ 30`, 0.3 for `30 < age ≤ 90`, 0.5 for
`90 < age ≤ 180`, 0.7 for `180 < age ≤ 365`, 1.0 for `age > 365`, and
0 for `age = 0` — the bins are half-open on the left, so an account age
of exactly 0 days falls outside every bin and keeps the `np.zeros`
initial value. -/
theorem C7_amended (age : ℚ) (h : 0 ≤ age) :
    experience_base age =
      if age = 0 then 0
      else if age ≤ 30 then 0.1
      else if age ≤ 90 then 0.3
      else if age ≤ 180 then 0.5
      else if age ≤ 365 then 0.7
      else 1 := by
  have hb : experience_base age =
      if 365 < age then 1.0
      else if 180 < age ∧ age ≤ 365 then 0.7
      else if 90 < age ∧ age ≤ 180 then 0.5
      else if 30 < age ∧ age ≤ 90 then 0.3
      else if 0 < age ∧ age ≤ 30 then 0.1
      else 0 := by
    simp only [experience_base, experience_age_bins, List.foldl, Option.all,
      Bool.and_true, Bool.and_eq_true, decide_eq_true_eq, and_true]
  rw [hb]
  rcases eq_or_lt_of_le h with h0 | h0
  · rw [← h0]; norm_num
  · by_cases h1 : age ≤ 30
    · rw [if_neg (by intro hh; linarith),
        if_neg (by rintro ⟨hh, -⟩; linarith),
        if_neg (by rintro ⟨hh, -⟩; linarith),
        if_neg (by rintro ⟨hh, -⟩; linarith), if_pos ⟨h0, h1⟩,
        if_neg h0.ne', if_pos h1]
    · by_cases h2 : age ≤ 90
      · rw [if_neg (by intro hh; linarith),
          if_neg (by rintro ⟨hh, -⟩; linarith),
          if_neg (by rintro ⟨hh, -⟩; linarith),
          if_pos ⟨not_le.mp h1, h2⟩,
          if_neg h0.ne', if_neg h1, if_pos h2]
      · by_cases h3 : age ≤ 180
        · rw [if_neg (by intro hh; linarith),
            if_neg (by rintro ⟨hh, -⟩; linarith),
            if_pos ⟨not_le.mp h2, h3⟩,
            if_neg h0.ne', if_neg h1, if_neg h2, if_pos h3]
        · by_cases h4 : age ≤ 365
          · rw [if_neg (by intro hh; linarith),
              if_pos ⟨not_le.mp h3, h4⟩,
              if_neg h0.ne', if_neg h1, if_neg h2, if_neg h3, if_pos h4]
          · rw [if_pos (not_le.mp h4),
              if_neg h0.ne', if_neg h1, if_neg h2, if_neg h3, if_neg h4]
            norm_num

/-- C7 witness: the amended bin map at concrete ages 17 and 400. -/
theorem C7_witness :
    (0 : ℚ) ≤ 17 ∧ (0 : ℚ) ≤ 400 ∧
    experience_base 17 =
      (if (17 : ℚ) = 0 then 0
       else if (17 : ℚ) ≤ 30 then 0.1
       else if (17 : ℚ) ≤ 90 then 0.3
       else if (17 : ℚ) ≤ 180 then 0.5
       else if (17 : ℚ) ≤ 365 then 0.7
       else 1) ∧
    experience_base 400 =
      (if (400 : ℚ) = 0 then 0
       else if (400 : ℚ) ≤ 30 then 0.1
       else if (400 : ℚ) ≤ 90 then 0.3
       else if (400 : ℚ) ≤ 180 then 0.5
       else if (400 : ℚ) ≤ 365 then 0.7
       else 1) :=
  ⟨by norm_num, by norm_num, C7_amended 17 (by norm_num),
   C7_amended 400 (by norm_num)⟩

/-- C3 counterexample: on a batch of two equal decision scores the
min-max normalization divides by zero and every wallet's anomaly score
is undefined (NaN, modelled `none`) — no fallback is applied and no
value in [0,1] is returned. -/
theorem C3_counterexample :
    normalize_decision_scores [3/10, 3/10] = [none, none] := by
  norm_num [normalize_decision_scores, listMinD, listMaxD, safeDivQ]

/-- Folding `min` over a list of copies of `a` yields `a`. -/
theorem foldl_min_eq_of_const {a : ℚ} : ∀ {t : List ℚ},
    (∀ x ∈ t, x = a) → t.foldl min a = a
  | [], _ => rfl
  | b :: tb, h => by
    rw [List.foldl_cons, h b (List.mem_cons_self b tb), min_self]
    exact foldl_min_eq_of_const fun x hx => h x (List.mem_cons_of_mem _ hx)

/-- Folding `max` over a list of copies of `a` yields `a`. -/
theorem foldl_max_eq_of_const {a : ℚ} : ∀ {t : List ℚ},
    (∀ x ∈ t, x = a) → t.foldl max a = a
  | [], _ => rfl
  | b :: tb, h => by
    rw [List.foldl_cons, h b (List.mem_cons_self b tb), max_self]
    exact foldl_max_eq_of_const fun x hx => h x (List.mem_cons_of_mem _ hx)

/-- C3 amended: for every non-empty batch whose decision scores are all
equal (in particular every single-wallet batch), `max == min`, the
unguarded min-max normalization of `detect_anomalies` divides by zero,
and every wallet's anomaly score is NaN (`none`) rather than a defined
value in [0,1]. -/
theorem C3_amended (l : List ℚ) (hne : l ≠ [])
    (heq : ∀ x ∈ l, ∀ y ∈ l, x = y) :
    ∀ o ∈ normalize_decision_scores l, o = none := by
  obtain ⟨a, t, rfl⟩ := List.exists_cons_of_ne_nil hne
  have hall : ∀ x ∈ t, x = a := fun x hx =>
    heq x (List.mem_cons_of_mem _ hx) a (List.mem_cons_self _ _)
  have hmn : listMinD (a :: t) 0 = a := foldl_min_eq_of_const hall
  have hmx : listMaxD (a :: t) 0 = a := foldl_max_eq_of_const hall
  intro o ho
  simp only [normalize_decision_scores, List.mem_map] at ho
  obtain ⟨x, -, rfl⟩ := ho
  rw [hmn, hmx]
  simp [safeDivQ]

/-- C3 witness: the amended statement at a concrete all-equal batch. -/
theorem C3_witness :
    ([(1:ℚ)/2, 1/2] ≠ []) ∧
    (∀ x ∈ [(1:ℚ)/2, 1/2], ∀ y ∈ [(1:ℚ)/2, 1/2], x = y) ∧
    ∀ o ∈ normalize_decision_scores [(1:ℚ)/2, 1/2], o = none :=
  ⟨by simp, by simp, C3_amended [(1:ℚ)/2, 1/2] (by simp)
    (by intro x hx y hy; simp at hx hy; rw [hx, hy])⟩

/-- C4: for every wallet with no borrows, at least one repayBorrow and
no liquidations, the zero-guarded repay-to-borrow quotient equals the
repayBorrow count (so it is ≥ 1), and `_calculate_repayment_behavior`
awards the `ratio ≥ 1.0` bucket (+0.5), the `no borrowing` bucket
(+0.2) and the `no liquidations` bucket (+0.3) additively, for a
clipped repayment score of exactly 1. -/
theorem C4_repayment_buckets_additive (addr : String) (txs : List NormTx)
    (hb : (calc_single_wallet_metrics addr txs).borrow_count = 0)
    (hr : 1 ≤ (calc_single_wallet_metrics addr txs).repayBorrow_count)
    (hl : (calc_single_wallet_metrics addr txs).liquidation_count = 0) :
    (calc_single_wallet_metrics addr txs).repay_to_borrow_rat =
      ((calc_single_wallet_metrics addr txs).repayBorrow_count : ℚ) ∧
    1 ≤ (calc_single_wallet_metrics addr txs).repay_to_borrow_rat ∧
    calculate_repayment_behavior ⟨[calc_single_wallet_metrics addr txs], true⟩ =
      .ok [1] := by
  have hb' : countAction txs "borrow" = 0 := hb
  have hratio : (calc_single_wallet_metrics addr txs).repay_to_borrow_rat =
      ((calc_single_wallet_metrics addr txs).repayBorrow_count : ℚ) := by
    show (countAction txs "repayBorrow" : ℚ) /
        ((max (countAction txs "borrow") 1 : ℕ) : ℚ) =
      (countAction txs "repayBorrow" : ℚ)
    rw [hb']
    norm_num
  have hge : (1 : ℚ) ≤ (calc_single_wallet_metrics addr txs).repay_to_borrow_rat := by
    rw [hratio]; exact_mod_cast hr
  have hrow : repayment_behavior_row
      (calc_single_wallet_metrics addr txs).repay_to_borrow_rat
      ((calc_single_wallet_metrics addr txs).borrow_count : ℚ)
      ((calc_single_wallet_metrics addr txs).liquidation_count : ℚ) = 1 := by
    unfold repayment_behavior_row
    rw [if_pos hge, if_neg (by rintro ⟨-, hlt⟩; linarith),
      if_pos (by rw [hb]; norm_num), if_pos (by rw [hl]; norm_num)]
    norm_num [clip]
  refine ⟨hratio, hge, ?_⟩
  show (Except.ok [repayment_behavior_row
      (calc_single_wallet_metrics addr txs).repay_to_borrow_rat
      ((calc_single_wallet_metrics addr txs).borrow_count : ℚ)
      ((calc_single_wallet_metrics addr txs).liquidation_count : ℚ)] :
    Except String (List ℚ)) = .ok [1]
  rw [hrow]

/-- C4 transaction list: one successful repayBorrow, nothing else. -/
def c4_txs : List NormTx := [{ compound_action := "repayBorrow" }]

/-- C4 witness: the additive bucket behavior at a concrete wallet. -/
theorem C4_witness :
    (calc_single_wallet_metrics "w" c4_txs).borrow_count = 0 ∧
    1 ≤ (calc_single_wallet_metrics "w" c4_txs).repayBorrow_count ∧
    (calc_single_wallet_metrics "w" c4_txs).liquidation_count = 0 ∧
    ((calc_single_wallet_metrics "w" c4_txs).repay_to_borrow_rat =
      ((calc_single_wallet_metrics "w" c4_txs).repayBorrow_count : ℚ) ∧
    1 ≤ (calc_single_wallet_metrics "w" c4_txs).repay_to_borrow_rat ∧
    calculate_repayment_behavior ⟨[calc_single_wallet_metrics "w" c4_txs], true⟩ =
      .ok [1]) :=
  ⟨by decide, by decide, by decide,
   C4_repayment_buckets_additive "w" c4_txs (by decide) (by decide) (by decide)⟩

/-- C10: for every wallet with at least 2 liquidations, the 0.5-per-
liquidation term alone reaches the clip ceiling, so
`_calculate_liquidation_risk` returns exactly 1 — the sub-score cannot
distinguish 2 liquidations from more. -/
theorem C10_liquidation_risk_saturates (addr : String) (txs : List NormTx)
    (h : 2 ≤ (calc_single_wallet_metrics addr txs).liquidation_count) :
    liquidation_risk_row
      ((calc_single_wallet_metrics addr txs).liquidation_count : ℚ)
      (calc_single_wallet_metrics addr txs).liquidation_rate
      ((calc_single_wallet_metrics addr txs).has_liquidations : ℚ) = 1 ∧
    calculate_liquidation_risk ⟨[calc_single_wallet_metrics addr txs], true⟩ =
      .ok [1] := by
  have h' : 2 ≤ countAction txs "liquidateBorrow" := h
  have hrate : 0 ≤ (calc_single_wallet_metrics addr txs).liquidation_rate := by
    show 0 ≤ (countAction txs "liquidateBorrow" : ℚ) /
        ((max txs.length 1 : ℕ) : ℚ)
    positivity
  have hhas : (calc_single_wallet_metrics addr txs).has_liquidations = 1 := by
    show (if 0 < countAction txs "liquidateBorrow" then 1 else 0) = 1
    rw [if_pos (by omega)]
  have hcount : (2 : ℚ) ≤
      ((calc_single_wallet_metrics addr txs).liquidation_count : ℚ) := by
    exact_mod_cast h
  have hrow : liquidation_risk_row
      ((calc_single_wallet_metrics addr txs).liquidation_count : ℚ)
      (calc_single_wallet_metrics addr txs).liquidation_rate
      ((calc_single_wallet_metrics addr txs).has_liquidations : ℚ) = 1 := by
    unfold liquidation_risk_row clip
    rw [hhas]
    have h1 : (1 : ℚ) ≤
        ((calc_single_wallet_metrics addr txs).liquidation_count : ℚ) * 0.5 +
        (calc_single_wallet_metrics addr txs).liquidation_rate * 0.3 +
        (1 : ℕ) * 0.2 := by
      push_cast
      nlinarith [hrate, hcount]
    rw [min_eq_right h1, max_eq_right (by norm_num : (0:ℚ) ≤ 1)]
  refine ⟨hrow, ?_⟩
  show (Except.ok [liquidation_risk_row
      ((calc_single_wallet_metrics addr txs).liquidation_count : ℚ)
      (calc_single_wallet_metrics addr txs).liquidation_rate
      ((calc_single_wallet_metrics addr txs).has_liquidations : ℚ)] :
    Except String (List ℚ)) = .ok [1]
  rw [hrow]

/-- C10 transaction list: two liquidateBorrow events. -/
def c10_txs : List NormTx :=
  [{ compound_action := "liquidateBorrow" },
   { compound_action := "liquidateBorrow", timestamp := 3600 }]

/-- C10 witness: the saturation at a concrete 2-liquidation wallet. -/
theorem C10_witness :
    2 ≤ (calc_single_wallet_metrics "w" c10_txs).liquidation_count ∧
    (liquidation_risk_row
      ((calc_single_wallet_metrics "w" c10_txs).liquidation_count : ℚ)
      (calc_single_wallet_metrics "w" c10_txs).liquidation_rate
      ((calc_single_wallet_metrics "w" c10_txs).has_liquidations : ℚ) = 1 ∧
    calculate_liquidation_risk ⟨[calc_single_wallet_metrics "w" c10_txs], true⟩ =
      .ok [1]) :=
  ⟨by decide, C10_liquidation_risk_saturates "w" c10_txs (by decide)⟩

/-- C5 counterexample: a batch containing one wallet with an empty
transaction list produces NO WalletMetrics row for it — the output
metrics frame is the empty column-less frame, not a frame with a
`total_transactions = 0` row for the wallet. -/
theorem C5_counterexample :
    calculate_wallet_metrics (process_wallet_data [{ address := "0xabc" }]) =
      ⟨[], false⟩ := rfl

/-- C5 amended: a wallet with an empty transaction list contributes no
normalized transaction rows, so it is entirely absent from the
WalletMetrics output (and hence from every later stage); every
WalletMetrics row the aggregator does produce has
`total_transactions ≥ 1`, so no `total_transactions = 0` row can ever
appear. -/
theorem C5_amended (input : List WalletInput) :
    ∀ r ∈ (calculate_wallet_metrics (process_wallet_data input)).rows,
      1 ≤ r.total_transactions := by
  intro r hr
  rcases hb : (process_wallet_data input).isEmpty with _ | _
  · simp only [calculate_wallet_metrics, hb, Bool.false_eq_true, if_false] at hr
    simp only [List.mem_map, List.mem_mergeSort, List.mem_dedup] at hr
    obtain ⟨k, hk, rfl⟩ := hr
    obtain ⟨t, ht, hkt⟩ := hk
    have hmem : t ∈ (process_wallet_data input).filter
        (fun t => decide (t.wallet_address = k)) :=
      List.mem_filter.mpr ⟨ht, by simp [hkt]⟩
    have hpos := List.length_pos.mpr (List.ne_nil_of_mem hmem)
    exact hpos
  · simp only [calculate_wallet_metrics, hb, if_true] at hr
    simp at hr

/-- C5 witness input: one wallet with a single transaction. -/
def c5_input : List WalletInput :=
  [{ address := "0xa", transactions := [{ timeStamp := some 100 }] }]

/-- C5 witness: the amended statement at a concrete one-transaction
wallet. -/
theorem C5_witness :
    1 ≤ (calc_single_wallet_metrics "0xa"
      ((process_wallet_data c5_input).filter
        (fun t => decide (t.wallet_address = "0xa")))).total_transactions := by
  refine C5_amended c5_input _ ?_
  simp [c5_input, process_wallet_data, flattenedTxs, normalizeTx,
    calculate_wallet_metrics]

/-- C6: on the empty batch (zero wallets, hence zero transactions) the
normalizer and the aggregator return well-typed empty results, but the
risk feature stage raises: `calculate_risk_features` accesses the
`liquidation_count` column of the empty column-less metrics DataFrame
and the access fails with a `KeyError` instead of returning an empty
result. -/
theorem C6_empty_batch_key_error :
    process_wallet_data [] = [] ∧
    calculate_wallet_metrics (process_wallet_data []) = ⟨[], false⟩ ∧
    calculate_risk_features (calculate_wallet_metrics (process_wallet_data []))
      = .error "liquidation_count" :=
  ⟨rfl, rfl, rfl⟩

/-- Transitivity of the (wallet_address, timestamp) sort key order. -/
theorem txKeyLE_trans (a b c : NormTx) (h1 : txKeyLE a b) (h2 : txKeyLE b c) :
    txKeyLE a c := by
  simp only [txKeyLE, decide_eq_true_eq] at *
  rcases h1 with h1 | ⟨h1e, h1t⟩ <;> rcases h2 with h2 | ⟨h2e, h2t⟩
  · exact Or.inl (lt_trans h1 h2)
  · exact Or.inl (by rw [← h2e]; exact h1)
  · exact Or.inl (by rw [h1e]; exact h2)
  · exact Or.inr ⟨h1e.trans h2e, le_trans h1t h2t⟩

/-- Totality of the (wallet_address, timestamp) sort key order. -/
theorem txKeyLE_total (a b : NormTx) : txKeyLE a b || txKeyLE b a := by
  simp only [txKeyLE, Bool.or_eq_true, decide_eq_true_eq]
  rcases lt_trichotomy a.wallet_address b.wallet_address with h | h | h
  · exact Or.inl (Or.inl h)
  · rcases le_total a.timestamp b.timestamp with ht | ht
    · exact Or.inl (Or.inr ⟨h, ht⟩)
    · exact Or.inr (Or.inr ⟨h.symm, ht⟩)
  · exact Or.inr (Or.inl h)

/-- A filtered list is pairwise related by any relation that holds
between any two elements satisfying the filter predicate. -/
theorem pairwise_filter_of {α : Type} (p : α → Bool) (R : α → α → Prop)
    (h : ∀ a b, p a = true → p b = true → R a b) :
    ∀ l : List α, (l.filter p).Pairwise R
  | [] => by simp
  | a :: t => by
    by_cases hp : p a
    · rw [List.filter_cons_of_pos hp]
      exact List.Pairwise.cons
        (fun b hb => h a b hp (List.mem_filter.mp hb).2)
        (pairwise_filter_of p R h t)
    · rw [List.filter_cons_of_neg (by simpa using hp)]
      exact pairwise_filter_of p R h t

/-- Stability of the (wallet_address, timestamp) sort: filtering the
sorted table to one exact key gives the same rows in the same order as
filtering the unsorted input. -/
theorem mergeSort_filter_stable (l : List NormTx) (w : String) (t : ℤ) :
    (l.mergeSort txKeyLE).filter
        (fun r => decide (r.wallet_address = w ∧ r.timestamp = t)) =
      l.filter (fun r => decide (r.wallet_address = w ∧ r.timestamp = t)) := by
  set p : NormTx → Bool :=
    fun r => decide (r.wallet_address = w ∧ r.timestamp = t) with hp
  have hpair : (l.filter p).Pairwise (fun a b => txKeyLE a b = true) := by
    apply pairwise_filter_of
    intro a b ha hb
    rw [hp] at ha hb
    simp only [decide_eq_true_eq] at ha hb
    simp only [txKeyLE, decide_eq_true_eq]
    exact Or.inr ⟨ha.1.trans hb.1.symm, le_of_eq (ha.2.trans hb.2.symm)⟩
  have hsub : List.Sublist (l.filter p) (l.mergeSort txKeyLE) :=
    List.sublist_mergeSort txKeyLE_trans txKeyLE_total hpair
      (List.filter_sublist l)
  have hsub2 : List.Sublist (l.filter p) ((l.mergeSort txKeyLE).filter p) := by
    have h2 := hsub.filter p
    rwa [List.filter_eq_self.mpr
      (fun a ha => (List.mem_filter.mp ha).2)] at h2
  have hlen : ((l.mergeSort txKeyLE).filter p).length = (l.filter p).length :=
    ((List.mergeSort_perm l txKeyLE).filter p).length_eq
  exact (hsub2.eq_of_length hlen.symm).symm

/-- C8: the normalized transaction table is sorted ascending by the
(wallet_address, timestamp) key, and the sort is stable: for any exact
key the matching rows appear in the same order as in the flattened
input, so equal-timestamp transactions of a wallet keep their original
input order. -/
theorem C8_sorted_and_stable (input : List WalletInput) :
    (process_wallet_data input).Pairwise (fun a b => txKeyLE a b = true) ∧
    ∀ w t, (process_wallet_data input).filter
        (fun r => decide (r.wallet_address = w ∧ r.timestamp = t)) =
      (flattenedTxs input).filter
        (fun r => decide (r.wallet_address = w ∧ r.timestamp = t)) := by
  unfold process_wallet_data
  by_cases hdf : (flattenedTxs input).isEmpty
  · rw [if_pos hdf]
    refine ⟨?_, fun w t => rfl⟩
    rw [List.isEmpty_iff.mp hdf]
    exact List.Pairwise.nil
  · rw [if_neg hdf]
    exact ⟨List.sorted_mergeSort txKeyLE_trans txKeyLE_total _,
      fun w t => mergeSort_filter_stable _ w t⟩

/-- C8 witness input: one wallet with two raw transactions given in
decreasing timestamp order. -/
def c8_input : List WalletInput :=
  [{ address := "0xb",
     transactions := [{ timeStamp := some 5 }, { timeStamp := some 3 }] }]

/-- C8 witness: the sortedness-and-stability statement at a concrete
input. -/
theorem C8_witness :
    (process_wallet_data c8_input).Pairwise (fun a b => txKeyLE a b = true) ∧
    ∀ w t, (process_wallet_data c8_input).filter
        (fun r => decide (r.wallet_address = w ∧ r.timestamp = t)) =
      (flattenedTxs c8_input).filter
        (fun r => decide (r.wallet_address = w ∧ r.timestamp = t)) :=
  C8_sorted_and_stable c8_input
